import Mathlib

/-!
Verification development for the customer-dashboard client
(`src/types.ts`, `src/App.tsx`).

The React component's state is embedded as an explicit `AppState` record
(one field per `useState` hook).  Each event handler of `App.tsx` is
embedded as a *trace generator*: a function producing the list of
primitive effects (`Action`) the handler performs, given the current
state and the responses of the two external services (`Env`).  The final
state of a handler is obtained by folding `applyAction` over its trace,
which mirrors React's sequential processing of `setX` calls inside a
single async handler.  Service calls appear in the trace as `Action.svc`
markers (they do not change local state), so "no call reaches the
service" is the statement that the trace contains no `svc` action.

The `setTimeout` behaviour of `showNotify` is modelled separately by a
small discrete-time machine (`stepTime` / `runNotify`) because it is the
only part of the component where real time matters.
-/

namespace Dashboard

/-- `CustomerStatus` from `src/types.ts` (values 'ativo' / 'inativo' / 'pendente'). -/
inductive CustomerStatus where
  | active
  | inactive
  | pending
  deriving DecidableEq

/-- `Customer` from `src/types.ts`. -/
structure Customer where
  id : String
  empresa_id : String
  name : String
  phone : String
  email : String
  registration_date : String
  status : CustomerStatus
  observations : String
  is_deleted : Bool
  created_at : String
  created_by : String
  deriving DecidableEq

/-- `UserProfile` from `src/types.ts`. -/
structure UserProfile where
  id : String
  email : String
  company_name : String
  responsible_name : String
  accepted_terms : Bool
  created_at : String
  deriving DecidableEq

/-- `AuthState` from `src/types.ts`: `loading` is the Initializing flag. -/
structure AuthState where
  isLoggedIn : Bool
  profile : Option UserProfile
  loading : Bool
  deriving DecidableEq

/-- `AppStats` from `src/types.ts`. -/
structure AppStats where
  total : Nat
  active : Nat
  inactive : Nat
  deriving DecidableEq

/-- The `type` field of the notification state in `App.tsx` ('success' | 'error'). -/
inductive NotifKind where
  | success
  | error
  deriving DecidableEq

/-- The `notification` state of `App.tsx`: `{message, type}`. -/
structure Notif where
  message : String
  kind : NotifKind
  deriving DecidableEq

/-- The `authMode` state of `App.tsx` ('login' | 'signup'). -/
inductive AuthMode where
  | login
  | signup
  deriving DecidableEq

/-- The `authForm` state of `App.tsx`. -/
structure AuthForm where
  email : String
  password : String
  companyName : String
  responsibleName : String
  terms : Bool
  deriving DecidableEq

/-- The fields read from the customer form by `handleSaveCustomer`
(`formData.get(...)` in `App.tsx`). -/
structure CustomerForm where
  name : String
  phone : String
  email : String
  status : CustomerStatus
  date : String
  observations : String
  deriving DecidableEq

/-- The `Partial<Customer>` payload built by `handleSaveCustomer`. -/
structure CustomerPayload where
  id : Option String
  empresa_id : String
  name : String
  phone : String
  email : String
  status : CustomerStatus
  registration_date : String
  observations : String
  created_by : String
  is_deleted : Bool
  deriving DecidableEq

/-- One record per `useState` hook of the `App` component. -/
structure AppState where
  auth : AuthState
  customers : List Customer
  search : String
  showForm : Bool
  editingCustomer : Option Customer
  authMode : AuthMode
  authForm : AuthForm
  loading : Bool
  notification : Option Notif
  deriving DecidableEq

/-- Calls into the two external services (`authService`, `customerService`,
`supabase.auth`). -/
inductive ServiceCall where
  | getProfile (userId : String)
  | authSignIn (email password : String)
  | authSignUp (email password companyName responsibleName : String)
  | authSignOut
  | fetchAll (tenantId : String)
  | save (payload : CustomerPayload)
  | hardDelete (id tenantId : String)
  deriving DecidableEq

/-- Primitive effects performed by the handlers of `App.tsx`:
one constructor per distinct `setX(...)` call shape, plus `svc` marking a
call into an external service. -/
inductive Action where
  | setAuth (a : AuthState)
  | confirmLoggedIn
  | setCustomers (cs : List Customer)
  | filterOutCustomer (cid : String)
  | setSearch (q : String)
  | setShowForm (b : Bool)
  | setEditing (c : Option Customer)
  | setAuthMode (m : AuthMode)
  | setLoading (b : Bool)
  | setNotificationNow (n : Option Notif)
  | svc (c : ServiceCall)
  deriving DecidableEq

/-- The events dispatched to the `onAuthStateChange` handler, together with
the presence or absence of `session?.user` (carried user id). -/
inductive AuthEvent where
  | signedIn (userId : Option String)
  | signedOut
  | userDeleted
  | tokenRefreshed (userId : Option String)
  deriving DecidableEq

/-- Responses of the external services, one field per service method used by
`App.tsx`.  `Except.error m` models the call throwing an error whose
`message` is `m`. -/
structure Env where
  profileRes : String → Except String UserProfile
  signInRes : Except String Unit
  signUpRes : Except String Unit
  signOutRes : Except String Unit
  fetchAllRes : String → Except String (List Customer)
  saveRes : Except String Unit
  deleteRes : String → Except String Unit

/-- Effect of one primitive action on the component state.
`confirmLoggedIn` is `setAuth(prev => ({ ...prev, isLoggedIn: true }))`;
`filterOutCustomer` is `setCustomers(prev => prev.filter(c => c.id !== id))`;
`svc` leaves local state unchanged. -/
def applyAction (s : AppState) : Action → AppState
  | Action.setAuth a => { s with auth := a }
  | Action.confirmLoggedIn => { s with auth := { s.auth with isLoggedIn := true } }
  | Action.setCustomers cs => { s with customers := cs }
  | Action.filterOutCustomer cid =>
      { s with customers := s.customers.filter (fun c => c.id != cid) }
  | Action.setSearch q => { s with search := q }
  | Action.setShowForm b => { s with showForm := b }
  | Action.setEditing c => { s with editingCustomer := c }
  | Action.setAuthMode m => { s with authMode := m }
  | Action.setLoading b => { s with loading := b }
  | Action.setNotificationNow n => { s with notification := n }
  | Action.svc _ => s

/-- Run a handler trace from a state. -/
def runTrace (s : AppState) (t : List Action) : AppState :=
  t.foldl applyAction s

/-- The service calls issued by a trace. -/
def serviceCalls (t : List Action) : List ServiceCall :=
  t.filterMap fun a =>
    match a with
    | Action.svc c => some c
    | _ => none

/-- `setLoading(true); try { ...mid... } finally { setLoading(false) }`. -/
def withBusy (mid : List Action) : List Action :=
  Action.setLoading true :: mid ++ [Action.setLoading false]

/-- `err.message || 'Erro ao processar autenticação.'` from `handleAuth`. -/
def orDefaultMsg (m : String) : String :=
  if m == "" then "Erro ao processar autenticação." else m

/-- Trace of `initializeAuth` (App.tsx lines 27-40), with `mounted = true`.
`sessionRes` is the outcome of `supabase.auth.getSession()`:
`Except.error` models it throwing, `Except.ok none` no session token,
`Except.ok (some uid)` an existing session for user `uid`.  A throw from
`authService.getProfile` is caught by the same `catch`, which sets the
logged-out state. -/
def initAuthTrace (env : Env) (sessionRes : Except String (Option String)) :
    List Action :=
  match sessionRes with
  | Except.error _ =>
      [Action.setAuth { isLoggedIn := false, profile := none, loading := false }]
  | Except.ok none =>
      [Action.setAuth { isLoggedIn := false, profile := none, loading := false }]
  | Except.ok (some uid) =>
      Action.svc (ServiceCall.getProfile uid) ::
      match env.profileRes uid with
      | Except.ok p =>
          [Action.setAuth { isLoggedIn := true, profile := some p, loading := false }]
      | Except.error _ =>
          [Action.setAuth { isLoggedIn := false, profile := none, loading := false }]

/-- Trace of the `onAuthStateChange` handler (App.tsx lines 44-62).
`mounted = false` short-circuits every event (`if (!mounted) return`). -/
def authEventTrace (env : Env) (mounted : Bool) (ev : AuthEvent) : List Action :=
  if !mounted then []
  else
    match ev with
    | AuthEvent.signedIn (some uid) =>
        Action.svc (ServiceCall.getProfile uid) ::
        match env.profileRes uid with
        | Except.ok p =>
            [Action.setAuth { isLoggedIn := true, profile := some p, loading := false }]
        | Except.error _ =>
            [Action.setAuth { isLoggedIn := true, profile := none, loading := false }]
    | AuthEvent.signedIn none => []
    | AuthEvent.signedOut =>
        [Action.setAuth { isLoggedIn := false, profile := none, loading := false },
         Action.setCustomers []]
    | AuthEvent.userDeleted =>
        [Action.setAuth { isLoggedIn := false, profile := none, loading := false },
         Action.setCustomers []]
    | AuthEvent.tokenRefreshed (some _) => [Action.confirmLoggedIn]
    | AuthEvent.tokenRefreshed none => []

/-- Trace of `loadCustomers` (App.tsx lines 76-84). -/
def loadCustomersTrace (s : AppState) (env : Env) : List Action :=
  match s.auth.profile with
  | none => []
  | some p =>
      Action.svc (ServiceCall.fetchAll p.id) ::
      match env.fetchAllRes p.id with
      | Except.ok data => [Action.setCustomers data]
      | Except.error _ =>
          [Action.setNotificationNow
            (some { message := "Falha ao carregar lista de clientes.",
                    kind := NotifKind.error })]

/-- The payload built by `handleSaveCustomer` (App.tsx lines 134-145). -/
def mkPayload (editing : Option Customer) (p : UserProfile) (f : CustomerForm) :
    CustomerPayload :=
  { id := editing.map Customer.id
  , empresa_id := p.id
  , name := f.name
  , phone := f.phone
  , email := f.email
  , status := f.status
  , registration_date := f.date
  , observations := f.observations
  , created_by := p.id
  , is_deleted := false }

/-- Trace of `handleAuth` (App.tsx lines 104-124).  The local throw for
missing terms acceptance is caught by the handler's own `catch`, which
shows its message as an error notification. -/
def handleAuthTrace (s : AppState) (env : Env) : List Action :=
  if s.loading then []
  else
    withBusy
      (match s.authMode with
       | AuthMode.signup =>
           if !s.authForm.terms then
             [Action.setNotificationNow
               (some { message := orDefaultMsg "Você precisa aceitar os termos da LGPD.",
                       kind := NotifKind.error })]
           else
             Action.svc (ServiceCall.authSignUp s.authForm.email s.authForm.password
               s.authForm.companyName s.authForm.responsibleName) ::
             match env.signUpRes with
             | Except.ok _ =>
                 [Action.setNotificationNow
                   (some { message := "Cadastro realizado! Se o e-mail de confirmação estiver ativo, verifique sua caixa de entrada.",
                           kind := NotifKind.success }),
                  Action.setAuthMode AuthMode.login]
             | Except.error m =>
                 [Action.setNotificationNow
                   (some { message := orDefaultMsg m, kind := NotifKind.error })]
       | AuthMode.login =>
           Action.svc (ServiceCall.authSignIn s.authForm.email s.authForm.password) ::
           match env.signInRes with
           | Except.ok _ =>
               [Action.setNotificationNow
                 (some { message := "Bem-vindo de volta!", kind := NotifKind.success })]
           | Except.error m =>
               [Action.setNotificationNow
                 (some { message := orDefaultMsg m, kind := NotifKind.error })])

/-- Trace of `handleSaveCustomer` (App.tsx lines 126-157).  On a
successful save the handler awaits `loadCustomers()` (which catches its
own failures) and then closes the form. -/
def handleSaveCustomerTrace (s : AppState) (env : Env) (f : CustomerForm) :
    List Action :=
  match s.auth.profile with
  | none => []
  | some p =>
      withBusy
        (Action.svc (ServiceCall.save (mkPayload s.editingCustomer p f)) ::
         match env.saveRes with
         | Except.ok _ =>
             loadCustomersTrace s env ++
             [Action.setShowForm false, Action.setEditing none,
              Action.setNotificationNow
                (some { message := "Alterações salvas com sucesso.",
                        kind := NotifKind.success })]
         | Except.error _ =>
             [Action.setNotificationNow
               (some { message := "Erro ao salvar no servidor.",
                       kind := NotifKind.error })])

/-- Trace of `handleDelete` (App.tsx lines 159-173).  `confirmed` is the
result of `window.confirm`. -/
def handleDeleteTrace (s : AppState) (env : Env) (cid : String) (confirmed : Bool) :
    List Action :=
  match s.auth.profile with
  | none => []
  | some p =>
      if !confirmed then []
      else
        withBusy
          (Action.svc (ServiceCall.hardDelete cid p.id) ::
           match env.deleteRes cid with
           | Except.ok _ =>
               [Action.filterOutCustomer cid,
                Action.setNotificationNow
                  (some { message := "Cliente excluído permanentemente.",
                          kind := NotifKind.success })]
           | Except.error _ =>
               [Action.setNotificationNow
                 (some { message := "Falha ao deletar registro.",
                         kind := NotifKind.error })])

/-- Trace of `handleLogout` (App.tsx lines 175-184). -/
def handleLogoutTrace (env : Env) : List Action :=
  withBusy
    (Action.svc ServiceCall.authSignOut ::
     match env.signOutRes with
     | Except.ok _ => []
     | Except.error _ =>
         [Action.setNotificationNow
           (some { message := "Falha ao sair. Recarregue a página.",
                   kind := NotifKind.error })])

/-- State after `loadCustomers`. -/
def loadCustomers (s : AppState) (env : Env) : AppState :=
  runTrace s (loadCustomersTrace s env)

/-- State after `handleAuth`. -/
def handleAuth (s : AppState) (env : Env) : AppState :=
  runTrace s (handleAuthTrace s env)

/-- State after `handleSaveCustomer`. -/
def handleSaveCustomer (s : AppState) (env : Env) (f : CustomerForm) : AppState :=
  runTrace s (handleSaveCustomerTrace s env f)

/-- State after `handleDelete`. -/
def handleDelete (s : AppState) (env : Env) (cid : String) (confirmed : Bool) :
    AppState :=
  runTrace s (handleDeleteTrace s env cid confirmed)

/-- State after `handleLogout`. -/
def handleLogout (s : AppState) (env : Env) : AppState :=
  runTrace s (handleLogoutTrace env)

/-- State after one `onAuthStateChange` event. -/
def runAuthEvent (s : AppState) (env : Env) (mounted : Bool) (ev : AuthEvent) :
    AppState :=
  runTrace s (authEventTrace env mounted ev)

/-- `pat` starts the list `l` (character-wise). -/
def listStartsWith : List Char → List Char → Bool
  | [], _ => true
  | _ :: _, [] => false
  | a :: pat, b :: l => a == b && listStartsWith pat l

/-- `pat` occurs contiguously somewhere in `l`. -/
def listContainsSub (pat : List Char) : List Char → Bool
  | [] => pat.isEmpty
  | b :: l => listStartsWith pat (b :: l) || listContainsSub pat l

/-- JavaScript `s.includes(pat)`. -/
def strContains (s pat : String) : Bool :=
  listContainsSub pat.data s.data

/-- JavaScript `s.toLowerCase()`, character-wise. -/
def strToLower (s : String) : String :=
  String.mk (s.data.map Char.toLower)

/-- The `filteredCustomers` memo of `App.tsx` (lines 91-96):
case-insensitive substring match on `name`, raw substring match on `phone`. -/
def filteredCustomers (customers : List Customer) (search : String) : List Customer :=
  customers.filter fun c =>
    strContains (strToLower c.name) (strToLower search) || strContains c.phone search

/-- The `stats` memo of `App.tsx` (lines 98-102). -/
def stats (customers : List Customer) : AppStats :=
  { total := customers.length
  , active := (customers.filter fun c => c.status == CustomerStatus.active).length
  , inactive := (customers.filter fun c => c.status != CustomerStatus.active).length }

/-- Does a trace issue any service call? -/
def hasSvc (t : List Action) : Bool :=
  t.any fun a =>
    match a with
    | Action.svc _ => true
    | _ => false

/-- A trace that issues a service call sets the busy flag first and clears it
last (`setLoading(true); try ... finally setLoading(false)`). -/
def busyBracketsB (t : List Action) : Bool :=
  !hasSvc t ||
    (t.head? == some (Action.setLoading true) &&
     t.getLast? == some (Action.setLoading false))

/-!
Discrete-time model of `showNotify` (App.tsx lines 86-89).  A call at time
`t` sets the notification and schedules `setNotification(null)` at `t + 4`
(the 4000 ms timeout, in time-units).  The source never cancels a pending
timeout, so every scheduled clear fires.  `NotifState.timers` holds the
absolute fire times of the pending timeouts.
-/

/-- Pending-timeout state of the notification system. -/
structure NotifState where
  current : Option Notif
  timers : List Nat
  deriving DecidableEq

/-- One time-unit tick at absolute time `t`: first any timeout scheduled for
`t` fires (`setNotification(null)`), then a `showNotify` call made at `t`
(if any) sets the notification and schedules its own clear at `t + 4`. -/
def stepTime (calls : List (Nat × Notif)) (t : Nat) (s : NotifState) : NotifState :=
  let fired :=
    if s.timers.contains t then
      { current := none, timers := s.timers.filter fun x => x != t : NotifState }
    else s
  match calls.find? (fun c => c.fst == t) with
  | some c => { current := some c.snd, timers := fired.timers ++ [t + 4] }
  | none => fired

/-- Notification state after processing times `0 .. t`, for a given schedule
of `showNotify` calls. -/
def runNotify (calls : List (Nat × Notif)) : Nat → NotifState
  | 0 => stepTime calls 0 { current := none, timers := [] }
  | t + 1 => stepTime calls (t + 1) (runNotify calls t)

/-- The two rapid `showNotify` calls of the scenario: success at `t = 0`,
error at `t = 2` (inside the first call's 4-unit window). -/
def demoCalls : List (Nat × Notif) :=
  [(0, { message := "Saving...", kind := NotifKind.success }),
   (2, { message := "Failed", kind := NotifKind.error })]

/-!  Concrete inputs used by the witness theorems. -/

/-- The `authForm` initializer of `App.tsx` line 19. -/
def authForm0 : AuthForm :=
  { email := "", password := "", companyName := "", responsibleName := ""
  , terms := false }

/-- The initial component state (the `useState` initializers of
App.tsx lines 13-21). -/
def state0 : AppState :=
  { auth := { isLoggedIn := false, profile := none, loading := true }
  , customers := []
  , search := ""
  , showForm := false
  , editingCustomer := none
  , authMode := AuthMode.login
  , authForm := authForm0
  , loading := false
  , notification := none }

/-- A concrete tenant profile. -/
def profileW : UserProfile :=
  { id := "t1", email := "ana@acme.com", company_name := "Acme"
  , responsible_name := "Ana", accepted_terms := true, created_at := "2024-01-01" }

/-- A concrete customer owned by `profileW`. -/
def customerW : Customer :=
  { id := "c1", empresa_id := "t1", name := "Ana Silva", phone := "11999"
  , email := "", registration_date := "2024-01-02"
  , status := CustomerStatus.active, observations := "", is_deleted := false
  , created_at := "2024-01-02", created_by := "t1" }

/-- A logged-in state holding `profileW` and one customer. -/
def stateL : AppState :=
  { auth := { isLoggedIn := true, profile := some profileW, loading := false }
  , customers := [customerW]
  , search := ""
  , showForm := false
  , editingCustomer := none
  , authMode := AuthMode.login
  , authForm := authForm0
  , loading := false
  , notification := none }

/-- A logged-out state sitting on the signup form with the terms box
unchecked. -/
def stateSignup : AppState :=
  { auth := { isLoggedIn := false, profile := none, loading := false }
  , customers := []
  , search := ""
  , showForm := false
  , editingCustomer := none
  , authMode := AuthMode.signup
  , authForm := { email := "bob@acme.com", password := "pw", companyName := "Acme"
                , responsibleName := "Bob", terms := false }
  , loading := false
  , notification := none }

/-- A concrete filled customer form. -/
def formW : CustomerForm :=
  { name := "Bob Costa", phone := "22888", email := "", status := CustomerStatus.pending
  , date := "2024-02-02", observations := "" }

/-- An environment in which every service call succeeds. -/
def envOk : Env :=
  { profileRes := fun _ => Except.ok profileW
  , signInRes := Except.ok ()
  , signUpRes := Except.ok ()
  , signOutRes := Except.ok ()
  , fetchAllRes := fun _ => Except.ok [customerW]
  , saveRes := Except.ok ()
  , deleteRes := fun _ => Except.ok () }

/-- An environment in which every service call throws. -/
def envFail : Env :=
  { profileRes := fun _ => Except.error "network down"
  , signInRes := Except.error "network down"
  , signUpRes := Except.error "network down"
  , signOutRes := Except.error "network down"
  , fetchAllRes := fun _ => Except.error "network down"
  , saveRes := Except.error "network down"
  , deleteRes := fun _ => Except.error "network down" }

/-!  Helper lemmas. -/

/-- Running a `withBusy` trace always ends with the busy flag cleared. -/
theorem loading_runTrace_withBusy (s : AppState) (mid : List Action) :
    (runTrace s (withBusy mid)).loading = false := by
  show (List.foldl applyAction s
    (Action.setLoading true :: mid ++ [Action.setLoading false])).loading = false
  simp only [List.foldl_cons, List.foldl_append, List.foldl_nil]
  rfl

/-- A `withBusy` trace sets the busy flag first and clears it last. -/
theorem busyBracketsB_withBusy (mid : List Action) :
    busyBracketsB (withBusy mid) = true := by
  have h1 : (withBusy mid).head? = some (Action.setLoading true) := rfl
  have h2 : (withBusy mid).getLast? = some (Action.setLoading false) := by
    show ((Action.setLoading true :: mid) ++ [Action.setLoading false]).getLast? = _
    exact List.getLast?_concat _
  simp [busyBracketsB, h1, h2]

/-- The empty trace trivially satisfies the busy bracketing. -/
theorem busyBracketsB_nil : busyBracketsB [] = true := rfl

/-- The empty pattern occurs in every character list. -/
theorem listContainsSub_nil (l : List Char) : listContainsSub [] l = true := by
  cases l with
  | nil => rfl
  | cons b l => simp [listContainsSub, listStartsWith]

/-- Counting a predicate and its negation partitions a list. -/
theorem length_filter_add_length_filter_not {α : Type} (p : α → Bool) (l : List α) :
    (l.filter p).length + (l.filter fun a => !(p a)).length = l.length :=
  (List.length_eq_length_filter_add p).symm

/-!  Claim theorems. -/

/-- Claim C2 (code evaluated at the failing input): with `showNotify` calls
at `t = 0` (success) and `t = 2` (error), the second message does replace
the first, but the first call's uncancelled timeout clears it at `t = 4`,
so at `t = 5` nothing is visible even though the claim says the "Failed"
notification stays until `t = 6`. -/
theorem C2_timer_evaluation :
    (runNotify demoCalls 2).current
        = some { message := "Failed", kind := NotifKind.error } ∧
    (runNotify demoCalls 3).current
        = some { message := "Failed", kind := NotifKind.error } ∧
    (runNotify demoCalls 5).current = none := by
  decide

/-- Claim C1 counterexample: at startup with an existing session for user
"u1" whose profile fetch throws, the resulting state is not
LoggedIn-with-absent-profile as the claim says: `isLoggedIn` is `false`
(the `catch` of `initializeAuth` sets the logged-out state). -/
theorem C1_counterexample :
    ¬ ((runTrace state0 (initAuthTrace envFail (Except.ok (some "u1")))).auth.isLoggedIn
          = true ∧
       (runTrace state0 (initAuthTrace envFail (Except.ok (some "u1")))).auth.profile
          = none) := by
  decide

/-- Claim C1 (amended): on startup, if an existing session token is present
but the profile fetch throws, the resulting state is LoggedOut
(`isLoggedIn = false`, profile absent); and every startup path clears the
Initializing flag. -/
theorem C1_startup_profile_failure (env : Env) (s : AppState) (uid e : String)
    (r : Except String (Option String))
    (h : env.profileRes uid = Except.error e) :
    (runTrace s (initAuthTrace env (Except.ok (some uid)))).auth
        = { isLoggedIn := false, profile := none, loading := false } ∧
    (runTrace s (initAuthTrace env r)).auth.loading = false := by
  constructor
  · simp [initAuthTrace, h, runTrace, applyAction]
  · match r with
    | Except.error m => simp [initAuthTrace, runTrace, applyAction]
    | Except.ok none => simp [initAuthTrace, runTrace, applyAction]
    | Except.ok (some u) =>
        cases hp : env.profileRes u <;>
          simp [initAuthTrace, hp, runTrace, applyAction]

/-- Claim C1 witness: the amended statement at the concrete startup
scenario (session for "u1", failing profile service, no-token path for
the Initializing conjunct). -/
theorem C1_startup_profile_failure_witness :
    envFail.profileRes "u1" = Except.error "network down" ∧
    ((runTrace state0 (initAuthTrace envFail (Except.ok (some "u1")))).auth
        = { isLoggedIn := false, profile := none, loading := false } ∧
     (runTrace state0 (initAuthTrace envFail (Except.ok none))).auth.loading = false) :=
  ⟨rfl, C1_startup_profile_failure envFail state0 "u1" "network down" (Except.ok none) rfl⟩

/-- Claim C3: in a logged-in state with a loaded profile, a
`TOKEN_REFRESHED` event confirms `isLoggedIn = true`, leaves the profile
and the Initializing flag exactly as they were (and the customer list
untouched), and issues no service call. -/
theorem C3_token_refreshed (env : Env) (s : AppState) (p : UserProfile) (uid : String)
    (h1 : s.auth.isLoggedIn = true) (h2 : s.auth.profile = some p) :
    (runAuthEvent s env true (AuthEvent.tokenRefreshed (some uid))).auth.isLoggedIn
        = true ∧
    (runAuthEvent s env true (AuthEvent.tokenRefreshed (some uid))).auth.profile
        = some p ∧
    (runAuthEvent s env true (AuthEvent.tokenRefreshed (some uid))).auth.loading
        = s.auth.loading ∧
    (runAuthEvent s env true (AuthEvent.tokenRefreshed (some uid))).customers
        = s.customers ∧
    serviceCalls (authEventTrace env true (AuthEvent.tokenRefreshed (some uid))) = [] := by
  simp [runAuthEvent, authEventTrace, runTrace, applyAction, serviceCalls, h2]

/-- Claim C3 witness: the token-refresh frame property at the concrete
logged-in state `stateL`. -/
theorem C3_token_refreshed_witness :
    stateL.auth.isLoggedIn = true ∧ stateL.auth.profile = some profileW ∧
    ((runAuthEvent stateL envOk true (AuthEvent.tokenRefreshed (some "t1"))).auth.isLoggedIn
        = true ∧
     (runAuthEvent stateL envOk true (AuthEvent.tokenRefreshed (some "t1"))).auth.profile
        = some profileW ∧
     (runAuthEvent stateL envOk true (AuthEvent.tokenRefreshed (some "t1"))).auth.loading
        = stateL.auth.loading ∧
     (runAuthEvent stateL envOk true (AuthEvent.tokenRefreshed (some "t1"))).customers
        = stateL.customers ∧
     serviceCalls (authEventTrace envOk true (AuthEvent.tokenRefreshed (some "t1"))) = []) :=
  ⟨rfl, rfl, C3_token_refreshed envOk stateL profileW "t1" rfl rfl⟩

/-- Claim C4: for an id present in the list, a confirmed `handleDelete`
removes exactly the records with that id (others unchanged, in order) and
raises a success notification when the service call succeeds; when it
fails, the list is exactly as before and an error notification is
raised. -/
theorem C4_hard_delete (s : AppState) (env : Env) (cid : String) (p : UserProfile)
    (hp : s.auth.profile = some p)
    (hmem : cid ∈ s.customers.map Customer.id) :
    (handleDelete s env cid true).customers
        = (match env.deleteRes cid with
           | Except.ok _ => s.customers.filter fun c => c.id != cid
           | Except.error _ => s.customers) ∧
    (handleDelete s env cid true).notification
        = (match env.deleteRes cid with
           | Except.ok _ =>
               some { message := "Cliente excluído permanentemente.",
                      kind := NotifKind.success }
           | Except.error _ =>
               some { message := "Falha ao deletar registro.",
                      kind := NotifKind.error }) := by
  cases hd : env.deleteRes cid <;>
    simp [handleDelete, handleDeleteTrace, hp, hd, withBusy, runTrace, applyAction,
      List.foldl_cons, List.foldl_append]

/-- Claim C4 witness: deleting the present id "c1" from `stateL` in the
all-success environment. -/
theorem C4_hard_delete_witness :
    stateL.auth.profile = some profileW ∧
    "c1" ∈ stateL.customers.map Customer.id ∧
    ((handleDelete stateL envOk "c1" true).customers
        = (match envOk.deleteRes "c1" with
           | Except.ok _ => stateL.customers.filter fun c => c.id != "c1"
           | Except.error _ => stateL.customers) ∧
     (handleDelete stateL envOk "c1" true).notification
        = (match envOk.deleteRes "c1" with
           | Except.ok _ =>
               some { message := "Cliente excluído permanentemente.",
                      kind := NotifKind.success }
           | Except.error _ =>
               some { message := "Falha ao deletar registro.",
                      kind := NotifKind.error })) :=
  ⟨rfl, by decide, C4_hard_delete stateL envOk "c1" profileW rfl (by decide)⟩

/-- Claim C5: processing a `SIGNED_OUT` or `USER_DELETED` event leaves
`isLoggedIn = false`, no profile, and an empty customer list, for every
prior state. -/
theorem C5_signed_out (env : Env) (s : AppState) :
    ((runAuthEvent s env true AuthEvent.signedOut).auth.isLoggedIn = false ∧
     (runAuthEvent s env true AuthEvent.signedOut).auth.profile = none ∧
     (runAuthEvent s env true AuthEvent.signedOut).customers = []) ∧
    ((runAuthEvent s env true AuthEvent.userDeleted).auth.isLoggedIn = false ∧
     (runAuthEvent s env true AuthEvent.userDeleted).auth.profile = none ∧
     (runAuthEvent s env true AuthEvent.userDeleted).customers = []) := by
  simp [runAuthEvent, authEventTrace, runTrace, applyAction]

/-- Claim C8: the empty search query keeps every customer. -/
theorem C8_empty_query (L : List Customer) : filteredCustomers L "" = L := by
  unfold filteredCustomers
  apply List.filter_eq_self.mpr
  intro c _
  have h : strContains (strToLower c.name) (strToLower "") = true := by
    show listContainsSub ((strToLower "").data) ((strToLower c.name).data) = true
    have hempty : (strToLower "").data = [] := rfl
    rw [hempty]
    exact listContainsSub_nil _
  simp [h]

/-- Claim C6: submitting the signup form with the terms box unchecked
issues no service call, leaves the Session unchanged, and surfaces the
local validation error as an error notification. -/
theorem C6_signup_terms (s : AppState) (env : Env)
    (hm : s.authMode = AuthMode.signup) (ht : s.authForm.terms = false)
    (hb : s.loading = false) :
    serviceCalls (handleAuthTrace s env) = [] ∧
    (handleAuth s env).auth = s.auth ∧
    (handleAuth s env).notification
        = some { message := "Você precisa aceitar os termos da LGPD.",
                 kind := NotifKind.error } := by
  simp [handleAuth, handleAuthTrace, hm, ht, hb, withBusy, serviceCalls, runTrace,
    applyAction, orDefaultMsg]

/-- Claim C6 witness: the terms-validation behaviour at the concrete
signup state. -/
theorem C6_signup_terms_witness :
    stateSignup.authMode = AuthMode.signup ∧ stateSignup.authForm.terms = false ∧
    stateSignup.loading = false ∧
    (serviceCalls (handleAuthTrace stateSignup envOk) = [] ∧
     (handleAuth stateSignup envOk).auth = stateSignup.auth ∧
     (handleAuth stateSignup envOk).notification
        = some { message := "Você precisa aceitar os termos da LGPD.",
                 kind := NotifKind.error }) :=
  ⟨rfl, rfl, rfl, C6_signup_terms stateSignup envOk rfl rfl rfl⟩

/-- `handleAuth` clears the busy flag on every exit path and brackets its
service calls with the busy flag. -/
theorem handleAuth_busy (s : AppState) (env : Env) (h : s.loading = false) :
    (handleAuth s env).loading = false ∧
    busyBracketsB (handleAuthTrace s env) = true := by
  unfold handleAuth handleAuthTrace
  rw [h]
  exact ⟨loading_runTrace_withBusy s _, busyBracketsB_withBusy _⟩

/-- `handleSaveCustomer` clears the busy flag on every exit path and
brackets its service calls with the busy flag. -/
theorem handleSaveCustomer_busy (s : AppState) (env : Env) (f : CustomerForm)
    (h : s.loading = false) :
    (handleSaveCustomer s env f).loading = false ∧
    busyBracketsB (handleSaveCustomerTrace s env f) = true := by
  unfold handleSaveCustomer handleSaveCustomerTrace
  cases hp : s.auth.profile with
  | none => simp only [hp]; exact ⟨h, rfl⟩
  | some p =>
      simp only [hp]
      exact ⟨loading_runTrace_withBusy s _, busyBracketsB_withBusy _⟩

/-- `handleDelete` clears the busy flag on every exit path and brackets its
service calls with the busy flag. -/
theorem handleDelete_busy (s : AppState) (env : Env) (cid : String) (cf : Bool)
    (h : s.loading = false) :
    (handleDelete s env cid cf).loading = false ∧
    busyBracketsB (handleDeleteTrace s env cid cf) = true := by
  unfold handleDelete handleDeleteTrace
  cases hp : s.auth.profile with
  | none => simp only [hp]; exact ⟨h, rfl⟩
  | some p =>
      simp only [hp]
      cases cf with
      | false => exact ⟨h, rfl⟩
      | true => exact ⟨loading_runTrace_withBusy s _, busyBracketsB_withBusy _⟩

/-- `handleLogout` clears the busy flag and brackets its service call with
the busy flag. -/
theorem handleLogout_busy (s : AppState) (env : Env) :
    (handleLogout s env).loading = false ∧
    busyBracketsB (handleLogoutTrace env) = true :=
  ⟨loading_runTrace_withBusy s _, busyBracketsB_withBusy _⟩

/-- Claim C7: each network-bound user action (auth submit, customer save,
customer delete, logout) leaves the busy flag cleared on every exit path,
and any trace of it that issues a service call sets the busy flag first
and clears it last. -/
theorem C7_busy_flag (s : AppState) (env : Env) (cid : String) (cf : Bool)
    (f : CustomerForm) (h : s.loading = false) :
    ((handleAuth s env).loading = false ∧
      busyBracketsB (handleAuthTrace s env) = true) ∧
    ((handleSaveCustomer s env f).loading = false ∧
      busyBracketsB (handleSaveCustomerTrace s env f) = true) ∧
    ((handleDelete s env cid cf).loading = false ∧
      busyBracketsB (handleDeleteTrace s env cid cf) = true) ∧
    ((handleLogout s env).loading = false ∧
      busyBracketsB (handleLogoutTrace env) = true) :=
  ⟨handleAuth_busy s env h, handleSaveCustomer_busy s env f h,
   handleDelete_busy s env cid cf h, handleLogout_busy s env⟩

/-- Claim C7 witness: the busy-flag discipline at the concrete logged-in
state in the all-success environment. -/
theorem C7_busy_flag_witness :
    stateL.loading = false ∧
    (((handleAuth stateL envOk).loading = false ∧
       busyBracketsB (handleAuthTrace stateL envOk) = true) ∧
     ((handleSaveCustomer stateL envOk formW).loading = false ∧
       busyBracketsB (handleSaveCustomerTrace stateL envOk formW) = true) ∧
     ((handleDelete stateL envOk "c1" true).loading = false ∧
       busyBracketsB (handleDeleteTrace stateL envOk "c1" true) = true) ∧
     ((handleLogout stateL envOk).loading = false ∧
       busyBracketsB (handleLogoutTrace envOk) = true)) :=
  ⟨rfl, C7_busy_flag stateL envOk "c1" true formW rfl⟩

/-- Claim C10: with no loaded profile, customer save, customer delete and
customer load are no-ops: their traces are empty (so no service call and
no notification) and the state is returned exactly as it was. -/
theorem C10_no_profile (s : AppState) (env : Env) (f : CustomerForm) (cid : String)
    (cf : Bool) (h : s.auth.profile = none) :
    handleSaveCustomerTrace s env f = [] ∧
    handleDeleteTrace s env cid cf = [] ∧
    loadCustomersTrace s env = [] ∧
    handleSaveCustomer s env f = s ∧
    handleDelete s env cid cf = s ∧
    loadCustomers s env = s := by
  simp [handleSaveCustomerTrace, handleDeleteTrace, loadCustomersTrace, h,
    handleSaveCustomer, handleDelete, loadCustomers, runTrace]

/-- Claim C10 witness: the three operations are no-ops at the initial
(no-profile) state. -/
theorem C10_no_profile_witness :
    state0.auth.profile = none ∧
    (handleSaveCustomerTrace state0 envOk formW = [] ∧
     handleDeleteTrace state0 envOk "c1" true = [] ∧
     loadCustomersTrace state0 envOk = [] ∧
     handleSaveCustomer state0 envOk formW = state0 ∧
     handleDelete state0 envOk "c1" true = state0 ∧
     loadCustomers state0 envOk = state0) :=
  ⟨rfl, C10_no_profile state0 envOk formW "c1" true rfl⟩

/-- Claim C9: `stats` satisfies `active + inactive = total`, with `total`
the list length, `active` the count of `status == active` records and
`inactive` the count of every other status. -/
theorem C9_stats_partition (L : List Customer) :
    (stats L).active + (stats L).inactive = (stats L).total ∧
    (stats L).total = L.length ∧
    (stats L).active = (L.filter fun c => c.status == CustomerStatus.active).length ∧
    (stats L).inactive = (L.filter fun c => c.status != CustomerStatus.active).length := by
  refine ⟨?_, rfl, rfl, rfl⟩
  show (L.filter fun c => c.status == CustomerStatus.active).length +
      (L.filter fun c => c.status != CustomerStatus.active).length = L.length
  exact length_filter_add_length_filter_not (fun c => c.status == CustomerStatus.active) L

end Dashboard
